import Mathlib

/-!
Verification of the undo/revert state-management core of the Databricks CSV
uploader app (`databricks_csv_uploader.py`).

The Dash stores (`csv-data-store`, `undo-stack-store`, `original-data-store`)
are JSON-serialized between callbacks, so across callbacks there is no
aliasing; inside one callback Python object aliasing applies.  Each callback
is embedded here as a pure function from the deserialized inputs to the
values that are serialized back to the stores at the end of the callback.
Where the Python code takes a shallow `dict.copy()` and then mutates a list
or row dict shared with that copy, the embedding records the value the
shared object holds at serialization time (i.e. after the in-place
mutations), since that is what actually lands in the store.

Cell values handled by the editing callbacks are strings (empty string for
a blank cell) or missing/NaN; a cell is embedded as `Option String` with
`none` playing the role of NaN / absent key.  A Python row dict is embedded
as an association list with dict update semantics (`rowSet` overwrites in
place, keys keep first-insertion order).
-/

/-- Undo configuration `UNDO_LIMIT = 10`: maximum number of undo steps to keep. -/
def UNDO_LIMIT : Nat := 10

/-- A cell value: `some s` is the string `s`, `none` is NaN / a missing key. -/
abbrev Cell := Option String

/-- A row: a Python dict from column name to cell value, embedded as an
association list with unique keys in insertion order. -/
abbrev Row := List (String × Cell)

/-- Python dict assignment `row[k] = v`: overwrite the value in place if the key
exists, else append the key at the end. -/
def rowSet (r : Row) (k : String) (v : Cell) : Row :=
  match r with
  | [] => [(k, v)]
  | (k', v') :: rest =>
      if k' = k then (k', v) :: rest else (k', v') :: rowSet rest k v

/-- Python dict deletion `del row[k]` (identity when the key is absent, matching
the `if selected_column in row` guard in the source). -/
def rowDel (r : Row) (k : String) : Row :=
  match r with
  | [] => []
  | (k', v') :: rest =>
      if k' = k then rest else (k', v') :: rowDel rest k

/-- Python dict lookup `row[k]`; `none` when the key is absent. -/
def rowGet (r : Row) (k : String) : Option Cell :=
  r.lookup k

/-- The `csv-data-store` payload, a dict with a `data` list of row records
and a `columns` name list. -/
structure CsvData where
  data : List Row
  columns : List String
deriving DecidableEq, Repr

/-- Embedding of `push_to_undo_stack(undo_stack, new_state)`: append, then keep only the
last `UNDO_LIMIT` entries (`undo_stack[-UNDO_LIMIT:]`). -/
def push_to_undo_stack (undo_stack : List CsvData) (new_state : CsvData) :
    List CsvData :=
  let s := undo_stack ++ [new_state]
  if s.length > UNDO_LIMIT then s.drop (s.length - UNDO_LIMIT) else s

/-- Embedding of `pop_from_undo_stack(undo_stack)`: `(None, [])` on an empty stack, else
pop the most recent (last) state. -/
def pop_from_undo_stack (undo_stack : List CsvData) :
    Option CsvData × List CsvData :=
  match undo_stack.getLast? with
  | none => (none, [])
  | some last => (some last, undo_stack.dropLast)

/-- Embedding of `get_undo_count(undo_stack)`. -/
def get_undo_count (undo_stack : List CsvData) : Nat :=
  undo_stack.length

/-- Dict comprehension over column names, assigning `v` under
every name in `cols` (duplicate names collapse, dict semantics). -/
def rowFromKeys (cols : List String) (v : Cell) : Row :=
  cols.foldl (fun r c => rowSet r c v) []

/-- Embedding of the `add_row` callback body (active session, `n_clicks > 0`).  The source
pushes `csv_data.copy()` — a shallow copy whose `"data"` entry is the same
list object as the one of the current table — and then executes
`csv_data["data"].append(new_row)`, so at serialization time the snapshot
sitting on the undo stack contains the appended row as well: the pushed
snapshot equals the post-mutation state. -/
def add_row (csv_data : CsvData) (undo_stack : List CsvData) :
    CsvData × List CsvData :=
  let new_row : Row := rowFromKeys csv_data.columns (some "")
  let post : CsvData :=
    { data := csv_data.data ++ [new_row], columns := csv_data.columns }
  (post, push_to_undo_stack undo_stack post)

/-- Embedding of the `add_column` callback body, where
`new_col_name = f"New_Column_{len(columns)+1}"`.  Here
`csv_data["columns"].append(...)` and `row[new_col_name] = ''` mutate the
lists/dicts shared with the shallow copy pushed to the stack, so the pushed
snapshot again equals the post-mutation state.  There is no collision check:
a pre-existing column of the same name keeps a duplicate entry in `columns`
and has its values overwritten with the empty string. -/
def add_column (csv_data : CsvData) (undo_stack : List CsvData) :
    CsvData × List CsvData :=
  let new_col_name := "New_Column_" ++ toString (csv_data.columns.length + 1)
  let post : CsvData :=
    { data := csv_data.data.map (fun row => rowSet row new_col_name (some "")),
      columns := csv_data.columns ++ [new_col_name] }
  (post, push_to_undo_stack undo_stack post)

/-- Error outcomes of `delete_column_dropdown` (the two rejection messages). -/
inductive EditorError where
  | lastColumnError
  | columnNotFoundError
deriving DecidableEq, Repr

/-- Outcome of the `delete_column_dropdown` callback: either the new
serialized `(csv-data, undo-stack)` pair, or a rejection, in which case
every store output is `no_update` (state unchanged). -/
inductive DeleteOutcome where
  | ok (csv_data : CsvData) (undo_stack : List CsvData)
  | error (e : EditorError)
deriving DecidableEq, Repr

/-- Embedding of the `delete_column_dropdown` callback body (button clicked, a column
selected, active session).  The source checks `len(columns) <= 1` first and
column membership second; on rejection every store output is `no_update`
(state unchanged), embedded as `.error`.  On success it pushes the shallow
copy `csv_data.copy()` and then rebinds `csv_data["columns"]` (so the copy
keeps the pre-deletion column list) but mutates the shared row dicts with
`del row[selected_column]` (so the rows of the copy have the column already
removed). -/
def delete_column_dropdown (selected_column : String) (csv_data : CsvData)
    (undo_stack : List CsvData) : DeleteOutcome :=
  if csv_data.columns.length ≤ 1 then
    .error .lastColumnError
  else if ¬ csv_data.columns.contains selected_column then
    .error .columnNotFoundError
  else
    let post_rows := csv_data.data.map (fun row => rowDel row selected_column)
    let pushed : CsvData := { data := post_rows, columns := csv_data.columns }
    let post : CsvData :=
      { data := post_rows,
        columns := csv_data.columns.filter (fun col => col ≠ selected_column) }
    .ok post (push_to_undo_stack undo_stack pushed)

/-- Kind of the status message a callback reports. -/
inductive StatusKind where
  | warning
  | success
deriving DecidableEq, Repr

/-- Serialized outcome of the `undo_changes` callback: the values of
`csv-data-store` and `undo-stack-store` after the callback (unchanged on
`no_update`), the status kind, and the reported remaining-step count. -/
structure UndoOutcome where
  csv : CsvData
  stack : List CsvData
  status : StatusKind
  remaining : Nat
deriving DecidableEq, Repr

/-- Embedding of the `undo_changes` callback body (button clicked).  On an empty stack it
returns `no_update` for every store plus a warning div ("No previous state
to undo"); otherwise it restores the popped state and reports
`get_undo_count` of the remaining stack. -/
def undo_changes (current_data : CsvData) (undo_stack : List CsvData) :
    UndoOutcome :=
  match pop_from_undo_stack undo_stack with
  | (none, _) =>
      { csv := current_data, stack := undo_stack,
        status := .warning, remaining := get_undo_count undo_stack }
  | (some previous_state, updated_stack) =>
      { csv := previous_state, stack := updated_stack,
        status := .success, remaining := get_undo_count updated_stack }

/-- Outcome of the `revert_to_original` callback. -/
inductive RevertResult where
  | noOp
  | reverted (csv : CsvData) (stack : List CsvData)
deriving DecidableEq, Repr

/-- Embedding of the `revert_to_original` callback body (button clicked, active session, so
`current_data` is a truthy non-empty dict).  The guard
`not original_data or not original_data.get("data")` makes the callback a
warning no-op both when the original store is empty (`none` here) and when
the original snapshot has an empty `"data"` list.  Otherwise it pushes the
pre-revert current state (no subsequent mutation, so the push is exact) and
restores the original. -/
def revert_to_original (current_data : CsvData) (undo_stack : List CsvData)
    (original_data : Option CsvData) : RevertResult :=
  match original_data with
  | none => .noOp
  | some orig =>
      if orig.data = [] then .noOp
      else .reverted orig (push_to_undo_stack undo_stack current_data)

/-- The column index of `pd.DataFrame(records)`: keys in order of first
appearance across the records. -/
def insertKey (acc : List String) (k : String) : List String :=
  if acc.contains k then acc else acc ++ [k]

/-- Embedding of `df.columns` of a DataFrame built from a list of record dicts. -/
def dfColumns (records : List Row) : List String :=
  records.foldl (fun acc row => row.foldl (fun a kv => insertKey a kv.1) acc) []

/-- One record of `df.to_dict("records")`: every DataFrame column present,
with `none` (NaN) where the source record lacked the key. -/
def dfRow (cols : List String) (row : Row) : Row :=
  cols.map (fun c => (c, (rowGet row c).join))

/-- Embedding of the header expression
`str(first_row[col]) if pd.notna(first_row[col]) else f"Column_{i+1}"`:
the fallback fires only on NaN/missing, not on the empty string (for which
`pd.notna` is true), and `str` of a string cell is the string itself. -/
def headerValueRaw (i : Nat) (cell : Cell) : String :=
  match cell with
  | some v => v
  | none => "Column_" ++ toString (i + 1)

/-- Truncation applied in `create_preview_table`:
`header_value[:47] + "..."` when `len(header_value) > 50`. -/
def truncateHeader (s : String) : String :=
  if s.length > 50 then s.take 47 ++ "..." else s

/-- The parts of the `dash_table.DataTable` built by `create_preview_table`
that carry data: the displayed column names, the column ids, and the rows
handed to the table (`display_df = df.head(20)` then `.to_dict("records")`). -/
structure PreviewTable where
  headerNames : List String
  columnIds : List String
  bodyRows : List Row
deriving DecidableEq, Repr

/-- Embedding of the `create_preview_table(df, use_first_row_as_header)`
data content.  When
the flag is set and the frame is non-empty, each displayed name is the
(truncated) first-row value of that column; the column ids stay the stored
identifiers; the first row is kept inside the displayed data
(`display_df = df.head(20)` is a prefix that starts at row 0). -/
def create_preview_table (df : CsvData) (use_first_row_as_header : Bool) :
    PreviewTable :=
  let display := (df.data.take 20).map (dfRow df.columns)
  if use_first_row_as_header ∧ df.data ≠ [] then
    let first_row := df.data.headI
    { headerNames :=
        df.columns.enum.map
          (fun p => truncateHeader (headerValueRaw p.1 ((rowGet first_row p.2).join))),
      columnIds := df.columns,
      bodyRows := display }
  else
    { headerNames := df.columns, columnIds := df.columns, bodyRows := display }

/-- Embedding of the `update_csv_data_with_headers` callback body (the
table-edit / bulk-edit
submission).  `none` embeds the `PreventUpdate` raised when `table_data` is
empty.  The pushed shallow copy is followed only by *rebindings* of
`csv_data["data"]` and `csv_data["columns"]`, so here (unlike the add/delete
callbacks) the pushed snapshot really is the pre-edit state.  When headers
are enabled and the frame is non-empty, the stored columns are renamed after
the values of the first row (`Column_{i+1}` on NaN, no truncation here) and every
record is rebuilt under the new names. -/
def update_csv_data_with_headers (table_data : List Row) (csv_data : CsvData)
    (undo_stack : List CsvData) (has_header : Bool) :
    Option (CsvData × List CsvData) :=
  if table_data = [] then none
  else
    let updated_stack := push_to_undo_stack undo_stack csv_data
    let cols := dfColumns table_data
    let records := table_data.map (dfRow cols)
    if has_header ∧ table_data.length > 0 then
      let first_row := dfRow cols table_data.headI
      let new_column_names :=
        cols.enum.map (fun p => headerValueRaw p.1 ((rowGet first_row p.2).join))
      let renamed :=
        records.map (fun r =>
          (new_column_names.zip (r.map Prod.snd)).foldl
            (fun acc kv => rowSet acc kv.1 kv.2) [])
      some ({ data := renamed, columns := new_column_names }, updated_stack)
    else
      some ({ data := records, columns := cols }, updated_stack)

/-- A Python value as it sits in `csv_data["data"]` after the JSON
round-trip through the Dash store: an int, a float (payload abstracted — the
inference below never inspects the magnitude of a float), a string, or null. -/
inductive PyVal where
  | pint (n : Int)
  | pfloat
  | pstr (s : String)
  | pnull
deriving DecidableEq, Repr

/-- A row of typed values, as consumed by `create_delta_table_sql`. -/
abbrev PyRow := List (String × PyVal)

def PyVal.isInt : PyVal → Bool
  | .pint _ => true
  | _ => false

def PyVal.isNull : PyVal → Bool
  | .pnull => true
  | _ => false

def PyVal.isStr : PyVal → Bool
  | .pstr _ => true
  | _ => false

def PyVal.isFloat : PyVal → Bool
  | .pfloat => true
  | _ => false

/-- Values numeric-or-null, the ones pandas can place in a float64 column. -/
def PyVal.isNumericOrNull : PyVal → Bool
  | .pint _ => true
  | .pfloat => true
  | .pnull => true
  | .pstr _ => false

/-- The pandas dtypes that `create_delta_table_sql` distinguishes. -/
inductive Dtype where
  | int64
  | float64
  | object
deriving DecidableEq, Repr

/-- Dtype `pd.DataFrame(records)` infers for one column over this value
domain: `int64` when the column is non-empty and all ints; `float64` when
every value is numeric or null with at least one non-null (ints are widened,
nulls become NaN); `object` otherwise (any string, all-null, or empty). -/
def column_dtype (vals : List PyVal) : Dtype :=
  if vals.all PyVal.isInt ∧ vals ≠ [] then .int64
  else if vals.all PyVal.isNumericOrNull ∧ vals.any (fun v => !v.isNull) then
    .float64
  else .object

/-- The dtype → SQL type chain in `create_delta_table_sql`
(`object → STRING`, `int64/int32 → BIGINT`, `float64/float32 → DOUBLE`,
anything else `STRING`). -/
def sql_type (d : Dtype) : String :=
  match d with
  | .object => "STRING"
  | .int64 => "BIGINT"
  | .float64 => "DOUBLE"

/-- The values of one column of `pd.DataFrame(csv_data["data"])`: a missing
key becomes NaN (null). -/
def column_values (data : List PyRow) (col : String) : List PyVal :=
  data.map (fun r => (r.lookup col).getD .pnull)

/-- The `(column name, SQL type)` pairs `create_delta_table_sql` emits into
the CREATE TABLE statement, one per DataFrame column. -/
def delta_column_types (cols : List String) (data : List PyRow) :
    List (String × String) :=
  cols.map (fun c => (c, sql_type (column_dtype (column_values data c))))

/-- Spec-side: does a string spell an integer (optional sign, at least one
digit, digits only)? -/
def specIntString (s : String) : Bool :=
  match s.data with
  | [] => false
  | c :: rest =>
      if c == '-' || c == '+' then !rest.isEmpty && rest.all Char.isDigit
      else (c :: rest).all Char.isDigit

/-- Spec-side (claim C5 as stated): does a value parse as an integer?  An
int value trivially does; a float or null does not. -/
def specParsesAsInt : PyVal → Bool
  | .pint _ => true
  | .pfloat => false
  | .pnull => false
  | .pstr s => specIntString s

/-- Spec-side: does a string spell a decimal number (optional sign, at most
one decimal point, at least one digit, nothing but digits and the point)? -/
def specDecimalString (s : String) : Bool :=
  match s.data with
  | [] => false
  | c :: rest =>
      let body := if c == '-' || c == '+' then rest else c :: rest
      decide (body.countP (fun ch => ch == '.') ≤ 1) && body.any Char.isDigit &&
        body.all (fun ch => ch.isDigit || ch == '.')

/-- Spec-side: does a value parse as a decimal number? -/
def specParsesAsDecimal : PyVal → Bool
  | .pint _ => true
  | .pfloat => true
  | .pnull => false
  | .pstr s => specDecimalString s

/-- Spec-side: an "empty cell" (blank string or null). -/
def specIsEmptyCell : PyVal → Bool
  | .pnull => true
  | .pstr s => s = ""
  | _ => false

/-- Claim C5 as stated, for comparison with `column_dtype`/`sql_type`:
ignore empty cells, then integer type when every remaining value parses as
an integer, else floating-point when every remaining value parses as a
decimal number, else string. -/
def spec_infer_type (vals : List PyVal) : String :=
  let ne := vals.filter (fun v => ¬ specIsEmptyCell v)
  if ne.all specParsesAsInt then "BIGINT"
  else if ne.all specParsesAsDecimal then "DOUBLE"
  else "STRING"

/-- Amended C5 rule, phrased from the observed values: string type when any
value is a string or all values are null (or there are none); otherwise
floating-point when any value is a float or a null; otherwise integer. -/
def inferred_type_amended (vals : List PyVal) : String :=
  if vals.any PyVal.isStr || vals.all PyVal.isNull then "STRING"
  else if vals.any (fun v => v.isFloat || v.isNull) then "DOUBLE"
  else "BIGINT"

/-- A 1-column, 0-row session snapshot, as current right after an upload. -/
def c1_pre : CsvData := { data := [], columns := ["a"] }

/-- Amended C4 header rule: the stringified row-0 value of the column, with
the `Column_{i+1}` fallback only when that value is missing/NaN (an
empty-string value stays, giving an empty header name), and names longer
than 50 characters truncated to their first 47 plus an ellipsis marker. -/
def amendedHeaderName (i : Nat) (cell : Cell) : String :=
  let raw :=
    match cell with
    | some v => v
    | none => "Column_" ++ toString (i + 1)
  if raw.length > 50 then raw.take 47 ++ "..." else raw

/-- A snapshot whose first-row value for its single column is the empty
string (as left behind by `add_row`, which blanks cells with the empty
string). -/
def c4_empty_header_df : CsvData := { data := [[("a", some "")]], columns := ["a"] }

/-- A concrete two-column frame: a string first-row value and a NaN one. -/
def c4_wdf : CsvData :=
  { data := [[("a", some "x"), ("b", none)]], columns := ["a", "b"] }

/-- A current snapshot whose single column is literally named
`New_Column_2`, colliding with the name `add_column` will generate. -/
def c6_collision_csv : CsvData :=
  { data := [[("New_Column_2", some "v")]], columns := ["New_Column_2"] }

/-- A plain one-column, one-row snapshot. -/
def c6_wcsv : CsvData := { data := [[("a", some "x")]], columns := ["a"] }

/-- A two-column, one-row snapshot. -/
def c7_w2 : CsvData :=
  { data := [[("a", some "1"), ("b", some "2")]], columns := ["a", "b"] }

/-- A one-column, one-row snapshot used as a non-empty table. -/
def c8_current : CsvData := { data := [[("a", some "1")]], columns := ["a"] }

/-- A 21-row snapshot, one more row than the preview displays. -/
def c10_df : CsvData :=
  { data := List.replicate 21 [("a", some "v")], columns := ["a"] }

/- ------------------------------------------------------------------ -/
/- Theorems                                                            -/
/- ------------------------------------------------------------------ -/

/-- C1: the claim says a sequence of N ≤ 10 mutating operations followed by
N calls to `undo()` returns `current` to the pre-sequence snapshot.  It does
not: after the single-operation sequence `[addRow]` starting from `c1_pre`
with an empty undo stack, one `undo()` yields the post-add state (the
shallow `dict.copy()` pushed to the stack shares its `"data"` list with the
current table, so the append lands in the stacked snapshot too), which
differs from the pre-sequence snapshot. -/
theorem c1_undo_returns_post_state_not_presequence_snapshot :
    (undo_changes (add_row c1_pre []).1 (add_row c1_pre []).2).csv =
      (add_row c1_pre []).1 ∧
    (undo_changes (add_row c1_pre []).1 (add_row c1_pre []).2).csv ≠ c1_pre ∧
    (undo_changes (add_row c1_pre []).1 (add_row c1_pre []).2).status =
      .success := by
  decide

/-- C2: the claim says the snapshot pushed on a mutating operation is never
affected by subsequent in-place changes of the operation.  For `add_row` from
`c1_pre` the snapshot left on the stack equals the post-mutation state (it
contains the appended row) rather than the pre-push current `c1_pre`. -/
theorem c2_pushed_snapshot_mutated_by_add_row :
    (add_row c1_pre []).2 = [(add_row c1_pre []).1] ∧
    (add_row c1_pre []).2 ≠ [c1_pre] := by
  decide

/-- C3: the undo stack never exceeds `UNDO_LIMIT = 10` entries, and pushing
onto a full stack of 10 evicts the oldest entry (index 0) and appends the
new snapshot as the most recent entry. -/
theorem c3_undo_stack_bounded_and_evicts_oldest :
    (∀ (s : List CsvData) (x : CsvData), s.length ≤ UNDO_LIMIT →
        (push_to_undo_stack s x).length ≤ UNDO_LIMIT) ∧
    (∀ (s : List CsvData) (x : CsvData), s.length = UNDO_LIMIT →
        push_to_undo_stack s x = s.tail ++ [x] ∧
        (push_to_undo_stack s x).length = UNDO_LIMIT) := by
  constructor
  · intro s x h
    simp only [push_to_undo_stack, UNDO_LIMIT] at *
    split
    next h2 =>
      simp only [List.length_drop, List.length_append, List.length_singleton]
      omega
    next h2 =>
      simp only [List.length_append, List.length_singleton] at h2 ⊢
      omega
  · intro s x h
    simp only [push_to_undo_stack, UNDO_LIMIT] at *
    have hlen : (s ++ [x]).length = 11 := by
      simp [h]
    rw [if_pos (by omega)]
    have hdrop : (s ++ [x]).length - 10 = 1 := by omega
    rw [hdrop, List.drop_append_of_le_length (by omega), List.drop_one]
    refine ⟨rfl, ?_⟩
    simp [h]

/-- Witness for C3 at a concrete full stack of 10 snapshots. -/
theorem c3_witness :
    (List.replicate 10 c1_pre).length = UNDO_LIMIT ∧
    push_to_undo_stack (List.replicate 10 c1_pre) c1_pre =
      (List.replicate 10 c1_pre).tail ++ [c1_pre] ∧
    (push_to_undo_stack (List.replicate 10 c1_pre) c1_pre).length =
      UNDO_LIMIT :=
  ⟨by decide,
   (c3_undo_stack_bounded_and_evicts_oldest.2 (List.replicate 10 c1_pre) c1_pre
     (by decide)).1,
   (c3_undo_stack_bounded_and_evicts_oldest.2 (List.replicate 10 c1_pre) c1_pre
     (by decide)).2⟩

/-- Running `undo_changes` on a stack ending in `last` restores `last` and leaves
the remaining prefix as the stack. -/
theorem undo_changes_concat (c last : CsvData) (init : List CsvData) :
    undo_changes c (init ++ [last]) =
      { csv := last, stack := init, status := .success,
        remaining := init.length } := by
  simp [undo_changes, pop_from_undo_stack, get_undo_count,
    List.getLast?_concat, List.dropLast_concat]

/-- Pushing always leaves the pushed snapshot as the last stack entry (the
front may get evicted, the back never). -/
theorem push_to_undo_stack_concat (s : List CsvData) (x : CsvData) :
    ∃ t, push_to_undo_stack s x = t ++ [x] := by
  simp only [push_to_undo_stack]
  split
  next hgt =>
    refine ⟨s.drop ((s ++ [x]).length - UNDO_LIMIT), ?_⟩
    rw [List.drop_append_of_le_length]
    simp only [List.length_append, List.length_singleton] at hgt ⊢
    simp only [UNDO_LIMIT] at hgt ⊢
    omega
  next => exact ⟨s, rfl⟩

/-- C9: `undo()` on an empty stack is a warning no-op (current snapshot and
stack unchanged, zero remaining steps reported); on a non-empty stack it
pops the most recent snapshot, makes it current, and reports the count of
remaining undo steps. -/
theorem c9_undo_pops_most_recent_or_warns :
    (∀ c : CsvData, undo_changes c [] =
        { csv := c, stack := [], status := .warning, remaining := 0 }) ∧
    (∀ (c last : CsvData) (init : List CsvData),
        undo_changes c (init ++ [last]) =
          { csv := last, stack := init, status := .success,
            remaining := init.length }) :=
  ⟨fun _ => rfl, undo_changes_concat⟩

/-- C4 counterexample: the claim says an *empty* first-row value also falls
back to `Column_{i+1}`.  The source guards only with `pd.notna`, which is
true for the empty string, so an empty-string first-row cell yields the
empty header name, not `Column_1`. -/
theorem c4_counterexample_empty_string_header :
    (create_preview_table c4_empty_header_df true).headerNames = [""] ∧
    (create_preview_table c4_empty_header_df true).headerNames ≠ ["Column_1"] := by
  decide

/-- The amended header rule coincides with the two-stage code rule
`truncateHeader ∘ headerValueRaw`. -/
theorem amendedHeaderName_eq (i : Nat) (cell : Cell) :
    amendedHeaderName i cell = truncateHeader (headerValueRaw i cell) := by
  cases cell <;> rfl

/-- C4 (amended): with `treatFirstRowAsHeader` true and non-empty rows, the
derived header of column `i` is the row-0 value of that column with the
`Column_{i+1}` fallback only on a missing/NaN value, truncated past 50
characters to 47 plus an ellipsis; and the first row is retained as the
first displayed body row rather than removed. -/
theorem c4_header_derivation_amended (df : CsvData) (h : df.data ≠ []) :
    (create_preview_table df true).headerNames.length = df.columns.length ∧
    (∀ i (hi : i < df.columns.length),
        (create_preview_table df true).headerNames[i]? =
          some (amendedHeaderName i ((rowGet df.data.headI df.columns[i]).join))) ∧
    (create_preview_table df true).bodyRows.head? =
      some (dfRow df.columns df.data.headI) := by
  obtain ⟨r0, rest, hdd⟩ := List.exists_cons_of_ne_nil h
  refine ⟨?_, ?_, ?_⟩
  · simp only [create_preview_table]
    rw [hdd]
    simp [List.enum_length]
  · intro i hi
    simp only [create_preview_table]
    rw [hdd]
    simp only [ne_eq, reduceCtorEq, not_false_eq_true, and_self, if_pos,
      List.headI_cons]
    rw [List.getElem?_map, List.getElem?_enum, List.getElem?_eq_getElem hi]
    simp [amendedHeaderName_eq, hdd]
  · simp only [create_preview_table]
    rw [hdd]
    simp [List.take_succ_cons, dfRow]

/-- Witness for the amended C4 at `c4_wdf`: the string value is used as the
header and the NaN value falls back to `Column_2`; the header-supplying row
stays as the first body row. -/
theorem c4_witness :
    c4_wdf.data ≠ [] ∧
    (create_preview_table c4_wdf true).headerNames[0]? = some "x" ∧
    (create_preview_table c4_wdf true).headerNames[1]? = some "Column_2" ∧
    (create_preview_table c4_wdf true).bodyRows.head? =
      some (dfRow c4_wdf.columns c4_wdf.data.headI) := by
  refine ⟨by decide, ?_, ?_, (c4_header_derivation_amended c4_wdf (by decide)).2.2⟩
  · have h0 := (c4_header_derivation_amended c4_wdf (by decide)).2.1 0 (by decide)
    rw [h0]
    decide
  · have h1 := (c4_header_derivation_amended c4_wdf (by decide)).2.1 1 (by decide)
    rw [h1]
    decide

/-- C5 counterexample: a column holding the single string value `"1"`.
Every non-empty value parses as an integer, so the claim assigns the integer
type, but `pd.DataFrame` gives a string column the `object` dtype and
`create_delta_table_sql` therefore emits `STRING`. -/
theorem c5_counterexample_numeric_string_column :
    delta_column_types ["a"] [[("a", .pstr "1")]] = [("a", "STRING")] ∧
    spec_infer_type [.pstr "1"] = "BIGINT" ∧
    sql_type (column_dtype [.pstr "1"]) ≠ spec_infer_type [.pstr "1"] := by
  decide

/-- C5 (amended): the inferred SQL type of a column is determined by the
runtime types of its values, not by string parsing — string type when any
value is a string or all values are null (or the column is empty),
floating-point when the values are numeric/null with at least one float or
null among them, and integer only when every value is integer-typed; the
`(name, type)` pairs of the generated CREATE TABLE follow this rule column
by column.  (Determinism is immediate: the inference is a function of the
snapshot.) -/
theorem c5_inference_follows_value_types :
    (∀ vals : List PyVal,
        sql_type (column_dtype vals) = inferred_type_amended vals) ∧
    (∀ (cols : List String) (data : List PyRow),
        delta_column_types cols data =
          cols.map fun c => (c, inferred_type_amended (column_values data c))) := by
  have main : ∀ vals : List PyVal,
      sql_type (column_dtype vals) = inferred_type_amended vals := by
    intro vals
    by_cases hnil : vals = []
    · subst hnil
      decide
    by_cases hS : vals.any PyVal.isStr = true
    · obtain ⟨v, hv, hvs⟩ := List.any_eq_true.mp hS
      have h1 : ¬ (vals.all PyVal.isInt = true) := fun hc => by
        have := List.all_eq_true.mp hc v hv
        cases v <;> simp_all [PyVal.isStr, PyVal.isInt]
      have h2 : ¬ (vals.all PyVal.isNumericOrNull = true) := fun hc => by
        have := List.all_eq_true.mp hc v hv
        cases v <;> simp_all [PyVal.isStr, PyVal.isNumericOrNull]
      simp [column_dtype, inferred_type_amended, sql_type, h1, h2, hS]
    · have hS' : ∀ v ∈ vals, PyVal.isStr v = false := by
        intro v hv
        cases hb : PyVal.isStr v
        · rfl
        · exact absurd (List.any_eq_true.mpr ⟨v, hv, hb⟩) hS
      have hN : vals.all PyVal.isNumericOrNull = true := by
        refine List.all_eq_true.mpr fun v hv => ?_
        have := hS' v hv
        cases v <;> simp_all [PyVal.isStr, PyVal.isNumericOrNull]
      by_cases hZ : vals.all PyVal.isNull = true
      · obtain ⟨v0, hv0⟩ := List.exists_mem_of_ne_nil vals hnil
        have h1 : ¬ (vals.all PyVal.isInt = true) := fun hc => by
          have hni := List.all_eq_true.mp hc v0 hv0
          have hnu := List.all_eq_true.mp hZ v0 hv0
          cases v0 <;> simp_all [PyVal.isInt, PyVal.isNull]
        have hP : ¬ (vals.any (fun v => !v.isNull) = true) := fun hc => by
          obtain ⟨v, hv, hvb⟩ := List.any_eq_true.mp hc
          have := List.all_eq_true.mp hZ v hv
          simp_all
        simp [column_dtype, inferred_type_amended, sql_type, h1, hP, hZ, hS]
      · have hP : vals.any (fun v => !v.isNull) = true := by
          rcases List.all_eq_true.not.mp hZ with h
          push_neg at h
          obtain ⟨v, hv, hvb⟩ := h
          exact List.any_eq_true.mpr ⟨v, hv, by simp_all⟩
        by_cases hF : vals.any (fun v => v.isFloat || v.isNull) = true
        · obtain ⟨v, hv, hvb⟩ := List.any_eq_true.mp hF
          have h1 : ¬ (vals.all PyVal.isInt = true) := fun hc => by
            have := List.all_eq_true.mp hc v hv
            cases v <;> simp_all [PyVal.isInt, PyVal.isFloat, PyVal.isNull]
          simp [column_dtype, inferred_type_amended, sql_type, h1, hN, hP, hS,
            hZ, hF]
        · have hA : vals.all PyVal.isInt = true := by
            refine List.all_eq_true.mpr fun v hv => ?_
            have hs := hS' v hv
            have hf : ¬ ((PyVal.isFloat v || PyVal.isNull v) = true) := fun hc =>
              absurd (List.any_eq_true.mpr ⟨v, hv, hc⟩) hF
            cases v <;> simp_all [PyVal.isStr, PyVal.isInt, PyVal.isFloat,
              PyVal.isNull]
          simp [column_dtype, inferred_type_amended, sql_type, hA, hnil, hS,
            hZ, hF]
  exact ⟨main, fun cols data => by simp [delta_column_types, main]⟩

/-- Looking up a key right after `rowSet` yields the written value. -/
theorem rowGet_rowSet (r : Row) (k : String) (v : Cell) :
    rowGet (rowSet r k v) k = some v := by
  induction r with
  | nil => simp [rowSet, rowGet, List.lookup]
  | cons kv rest ih =>
      obtain ⟨k', v'⟩ := kv
      by_cases h : k' = k
      · subst h
        simp [rowSet, rowGet, List.lookup]
      · simp only [rowSet, if_neg h, rowGet, List.lookup] at ih ⊢
        have hk : (k == k') = false :=
          beq_eq_false_iff_ne.mpr (fun hc => h hc.symm)
        simp [hk, ih]

/-- C6 counterexample: with the single column of the current snapshot
literally named `New_Column_2`, the generated name collides, yet
`add_column` does not fail — it appends a duplicate entry to the column list
and overwrites the value `"v"` of the existing column with the empty
string. -/
theorem c6_counterexample_collision_does_not_fail :
    (add_column c6_collision_csv []).1.columns =
      ["New_Column_2", "New_Column_2"] ∧
    (add_column c6_collision_csv []).1.data = [[("New_Column_2", some "")]] := by
  decide

/-- C6 (amended): `add_column` appends a column named `New_Column_{N+1}`
(`N` = current column count) and maps that key to the empty string in every
existing row, overwriting on a name collision instead of failing; the
snapshot it pushes onto the undo stack is the post-mutation state (the
column list and row dicts of the shallow copy are mutated in place), not the
pre-mutation current. -/
theorem c6_add_column_amended (csv_data : CsvData) (undo_stack : List CsvData) :
    (add_column csv_data undo_stack).1.columns =
      csv_data.columns ++
        ["New_Column_" ++ toString (csv_data.columns.length + 1)] ∧
    (add_column csv_data undo_stack).1.data.length = csv_data.data.length ∧
    (∀ r ∈ (add_column csv_data undo_stack).1.data,
        rowGet r ("New_Column_" ++ toString (csv_data.columns.length + 1)) =
          some (some "")) ∧
    (add_column csv_data undo_stack).2 =
      push_to_undo_stack undo_stack (add_column csv_data undo_stack).1 := by
  refine ⟨rfl, by simp [add_column], ?_, rfl⟩
  intro r hr
  simp only [add_column, List.mem_map] at hr
  obtain ⟨row, _, rfl⟩ := hr
  exact rowGet_rowSet row _ _

/-- Witness for the amended C6 at a one-column snapshot: the new column is
`New_Column_2` and the existing row carries the empty string under it. -/
theorem c6_witness :
    (add_column c6_wcsv []).1.columns = ["a", "New_Column_2"] ∧
    rowGet ((add_column c6_wcsv []).1.data.headI) "New_Column_2" =
      some (some "") := by
  constructor
  · have h := (c6_add_column_amended c6_wcsv []).1
    rw [h]
    decide
  · have h := (c6_add_column_amended c6_wcsv []).2.2.1
      ((add_column c6_wcsv []).1.data.headI) (by decide)
    have hname : "New_Column_" ++ toString (c6_wcsv.columns.length + 1) =
        "New_Column_2" := by decide
    rw [hname] at h
    exact h

/-- C7 counterexample: the claim demands `ColumnNotFoundError` *whenever*
the name is absent, but the source checks the last-column guard first, so
deleting the absent column `"b"` from a one-column snapshot is rejected
with `LastColumnError` instead. -/
theorem c7_counterexample_last_column_check_first :
    delete_column_dropdown "b" c8_current [] = .error .lastColumnError ∧
    EditorError.lastColumnError ≠ EditorError.columnNotFoundError := by
  decide

/-- C7 (amended): `deleteColumn` is rejected with `LastColumnError` whenever
at most one column remains (this check takes precedence); rejected with
`ColumnNotFoundError` whenever at least two columns remain and the name is
absent; both rejections leave current snapshot and undo stack unchanged
(`no_update`, embedded as `.error`).  Otherwise it removes the column from
the column list and from every row — but the snapshot it pushes onto the
undo stack keeps the pre-deletion column list while its shared row dicts
have the column already removed, so the push is not the pre-deletion
current. -/
theorem c7_delete_column_amended (name : String) (csv : CsvData)
    (us : List CsvData) :
    (csv.columns.length ≤ 1 →
        delete_column_dropdown name csv us = .error .lastColumnError) ∧
    (2 ≤ csv.columns.length → ¬ csv.columns.contains name →
        delete_column_dropdown name csv us = .error .columnNotFoundError) ∧
    (2 ≤ csv.columns.length → csv.columns.contains name →
        delete_column_dropdown name csv us =
          .ok { data := csv.data.map (fun row => rowDel row name),
                columns := csv.columns.filter (fun col => col ≠ name) }
              (push_to_undo_stack us
                { data := csv.data.map (fun row => rowDel row name),
                  columns := csv.columns })) := by
  refine ⟨?_, ?_, ?_⟩
  · intro h
    simp only [delete_column_dropdown, if_pos h]
  · intro h2 habs
    simp only [delete_column_dropdown]
    rw [if_neg (by omega), if_pos habs]
  · intro h2 hmem
    simp only [delete_column_dropdown]
    rw [if_neg (by omega), if_neg (not_not_intro hmem)]

/-- Witness for the amended C7: the three branches at concrete inputs; in
the success branch the pushed snapshot visibly keeps column `"b"` in its
column list while the row no longer has it. -/
theorem c7_witness :
    delete_column_dropdown "x" c1_pre [] = .error .lastColumnError ∧
    delete_column_dropdown "z" c7_w2 [] = .error .columnNotFoundError ∧
    delete_column_dropdown "b" c7_w2 [] =
      .ok { data := [[("a", some "1")]], columns := ["a"] }
          [{ data := [[("a", some "1")]], columns := ["a", "b"] }] := by
  refine ⟨(c7_delete_column_amended "x" c1_pre []).1 (by decide), ?_, ?_⟩
  · exact (c7_delete_column_amended "z" c7_w2 []).2.1 (by decide) (by decide)
  · have h := (c7_delete_column_amended "b" c7_w2 []).2.2 (by decide) (by decide)
    rw [h]
    decide

/-- C8 counterexample: the claim says `revert()` restores `current` to the
upload-time snapshot for every session, with a no-op only when no original
exists.  With an original that exists but has zero rows (`c1_pre`), the
guard `not original_data.get("data")` makes revert a warning no-op and
`current` stays different from the original. -/
theorem c8_counterexample_empty_rows_original :
    revert_to_original c8_current [] (some c1_pre) = .noOp ∧
    c8_current ≠ c1_pre := by
  decide

/-- C8 (amended): when the original snapshot exists *and has at least one
row*, `revert()` pushes the pre-revert current onto the undo stack and
restores the original exactly, and the following `undo()` returns the
pre-revert current (revert is one undo step); when the original is absent
or has no rows, revert is a warning no-op. -/
theorem c8_revert_restores_original_amended (cur orig : CsvData)
    (stack : List CsvData) (h : orig.data ≠ []) :
    revert_to_original cur stack (some orig) =
      .reverted orig (push_to_undo_stack stack cur) ∧
    (undo_changes orig (push_to_undo_stack stack cur)).csv = cur ∧
    revert_to_original cur stack none = .noOp ∧
    (∀ o : CsvData, o.data = [] → revert_to_original cur stack (some o) = .noOp) := by
  refine ⟨by simp [revert_to_original, h], ?_, rfl, ?_⟩
  · obtain ⟨t, ht⟩ := push_to_undo_stack_concat stack cur
    rw [ht, undo_changes_concat]
  · intro o ho
    simp [revert_to_original, ho]

/-- Witness for the amended C8 with current `c1_pre` and original
`c8_current`. -/
theorem c8_witness :
    c8_current.data ≠ [] ∧
    revert_to_original c1_pre [] (some c8_current) =
      .reverted c8_current [c1_pre] ∧
    (undo_changes c8_current (push_to_undo_stack [] c1_pre)).csv = c1_pre := by
  refine ⟨by decide, ?_,
    (c8_revert_restores_original_amended c1_pre c8_current [] (by decide)).2.1⟩
  have h := (c8_revert_restores_original_amended c1_pre c8_current []
    (by decide)).1
  rw [h]
  decide

/-- C10: the editable preview is always built from at most the first 20 rows
(`df.head(20)`), a table-edit submission always replaces the stored rows by
exactly the submitted (displayed) rows, and hence for a snapshot with more
than 20 rows, resubmitting the displayed table stores exactly 20 rows —
every row beyond the first 20 is silently dropped. -/
theorem c10_table_edit_drops_rows_beyond_preview :
    (∀ (df : CsvData) (b : Bool),
        (create_preview_table df b).bodyRows =
          (df.data.take 20).map (dfRow df.columns)) ∧
    (∀ (td : List Row) (csv : CsvData) (us : List CsvData) (b : Bool)
        (res : CsvData × List CsvData),
        update_csv_data_with_headers td csv us b = some res →
        res.1.data.length = td.length) ∧
    (∀ (df csv : CsvData) (us : List CsvData) (b : Bool),
        20 < df.data.length →
        ∃ res : CsvData × List CsvData,
          update_csv_data_with_headers (create_preview_table df true).bodyRows
              csv us b = some res ∧
            res.1.data.length = 20 ∧ res.1.data.length < df.data.length) := by
  have h1 : ∀ (df : CsvData) (b : Bool),
      (create_preview_table df b).bodyRows =
        (df.data.take 20).map (dfRow df.columns) := by
    intro df b
    simp only [create_preview_table]
    split <;> rfl
  have h2 : ∀ (td : List Row) (csv : CsvData) (us : List CsvData) (b : Bool)
      (res : CsvData × List CsvData),
      update_csv_data_with_headers td csv us b = some res →
      res.1.data.length = td.length := by
    intro td csv us b res h
    by_cases htd : td = []
    · simp [update_csv_data_with_headers, htd] at h
    · simp only [update_csv_data_with_headers, if_neg htd] at h
      split at h
      · cases h
        simp [List.length_map]
      · cases h
        simp [List.length_map]
  refine ⟨h1, h2, ?_⟩
  intro df csv us b h20
  have hblen : (create_preview_table df true).bodyRows.length = 20 := by
    rw [h1]
    simp only [List.length_map, List.length_take]
    omega
  have hbne : (create_preview_table df true).bodyRows ≠ [] := by
    intro hc
    rw [hc] at hblen
    simp at hblen
  obtain ⟨res, hres⟩ : ∃ res : CsvData × List CsvData,
      update_csv_data_with_headers (create_preview_table df true).bodyRows
        csv us b = some res := by
    simp only [update_csv_data_with_headers, if_neg hbne]
    split
    · exact ⟨_, rfl⟩
    · exact ⟨_, rfl⟩
  refine ⟨res, hres, ?_, ?_⟩
  · rw [h2 _ _ _ _ _ hres, hblen]
  · rw [h2 _ _ _ _ _ hres, hblen]
    exact h20

/-- Witness for C10 at a concrete 21-row snapshot: resubmitting the
displayed preview keeps 20 of the 21 stored rows. -/
theorem c10_witness :
    20 < c10_df.data.length ∧
    ∃ res : CsvData × List CsvData,
      update_csv_data_with_headers (create_preview_table c10_df true).bodyRows
          c10_df [] false = some res ∧
        res.1.data.length = 20 ∧ res.1.data.length < c10_df.data.length :=
  ⟨by decide,
   c10_table_edit_drops_rows_beyond_preview.2.2 c10_df c10_df [] false
     (by decide)⟩


